import Mathlib

/-!
Verification of the revenue-summary core of the repository
(`backend/app/services/reservations.py`, `backend/app/services/cache.py`).

The Python code is shallowly embedded: every database / timezone / cache
interaction is represented through an explicit environment value, with a
boolean flag per fallible call site, mirroring the exception structure of
the source.  Python `Decimal` arithmetic is modelled exactly with scaled
integers; `ROUND_HALF_UP` quantisation and `f"{value:.2f}"` formatting are
reproduced digit for digit.
-/

/-- Decimal digit character, as printed by Python for ints and Decimals. -/
def digitChar (n : Nat) : Char :=
  if n = 0 then '0' else if n = 1 then '1' else if n = 2 then '2'
  else if n = 3 then '3' else if n = 4 then '4' else if n = 5 then '5'
  else if n = 6 then '6' else if n = 7 then '7' else if n = 8 then '8' else '9'

/-- Decimal rendering of a natural number (most significant digit first),
modelling Python string formatting of non-negative integers. -/
def renderNat (n : Nat) : List Char :=
  if _h : n < 10 then [digitChar n]
  else renderNat (n / 10) ++ [digitChar (n % 10)]
  decreasing_by exact Nat.div_lt_self (by omega) (by omega)

/-- String form of `renderNat`. -/
def renderNatStr (n : Nat) : String := ⟨renderNat n⟩

/-- Exact decimal number `m / 10 ^ e`, the model of Python `Decimal`
values flowing out of the database layer. -/
structure Dec where
  m : Int
  e : Nat
deriving DecidableEq

/-- Exact addition of decimals (align exponents), modelling SQL `SUM`
over a `numeric` column as received by Python as `Decimal`. -/
def decAdd (a b : Dec) : Dec :=
  let e := max a.e b.e
  ⟨a.m * (10 : Int) ^ (e - a.e) + b.m * (10 : Int) ^ (e - b.e), e⟩

/-- Sum of a list of decimals. -/
def sumDec (l : List Dec) : Dec := l.foldl decAdd ⟨0, 0⟩

/-- Sign-magnitude value in hundredths: the model of a Python `Decimal`
with exponent `-2`, as produced by `quantize(Decimal("0.01"))`.  The sign
is kept separately because Python preserves it even on a zero magnitude
(`Decimal("-0.001")` quantises to `Decimal("-0.00")`). -/
structure Cents where
  neg : Bool
  cents : Nat
deriving DecidableEq

/-- Model of `Decimal(str(x)).quantize(Decimal("0.01"), rounding=ROUND_HALF_UP)`
from `calculate_monthly_revenue`: round the magnitude to hundredths with
ties going up (away from zero), keeping the sign. -/
def quantizeHalfUp (d : Dec) : Cents :=
  ⟨decide (d.m < 0),
   if d.e ≤ 2 then d.m.natAbs * 10 ^ (2 - d.e)
   else (d.m.natAbs + 10 ^ (d.e - 2) / 2) / 10 ^ (d.e - 2)⟩

/-- Exactly two decimal digits, zero padded: the fractional part printed
by `f"{value:.2f}"`. -/
def twoDigitChars (n : Nat) : List Char := [digitChar (n / 10 % 10), digitChar (n % 10)]

/-- Model of `_format_decimal` (`f"{value:.2f}"`) applied to a quantised
Decimal: optional sign, integer part, dot, two fractional digits. -/
def format_decimal (c : Cents) : String :=
  ⟨(if c.neg then ['-'] else []) ++ renderNat (c.cents / 100) ++ '.' :: twoDigitChars (c.cents % 100)⟩

/-- Check that a string ends in a dot followed by exactly two digits
(its last dot has exactly two fractional digits after it). -/
def twoFracDigits (s : String) : Bool :=
  match s.data.reverse with
  | d1 :: d2 :: c :: _ => d1.isDigit && d2.isDigit && decide (c = '.')
  | _ => false

/-- Python truthiness of an optional integer (`None` and `0` are falsy),
used by `if not month or not year` and `if month and year`. -/
def pyTruthy (o : Option Nat) : Bool :=
  match o with
  | none => false
  | some v => decide (v ≠ 0)

/-- Python `x or d` for an optional integer. -/
def pyOr (o : Option Nat) (d : Nat) : Nat :=
  match o with
  | none => d
  | some v => if v = 0 then d else v

/-- Python `total_revenue_raw or 0`: `None` and a zero `Decimal` are both
replaced by the integer `0`. -/
def pyOrDec (o : Option Dec) : Dec :=
  match o with
  | none => ⟨0, 0⟩
  | some d => if d.m = 0 then ⟨0, 0⟩ else d

/-- One reservation row of the `reservations` table: owning property and
tenant, UTC check-in instant (integer timeline), monetary amount. -/
structure Reservation where
  propertyId : String
  tenantId : String
  checkIn : Int
  amount : Dec
deriving DecidableEq

/-- Abstraction of one loaded `zoneinfo` timezone: conversion of a local
midnight on day 1 of (year, month) to a UTC instant, and extraction of the
local (year, month) of a UTC instant. -/
structure TZInfo where
  midnightToUTC : Nat → Nat → Int
  yearMonthOfInstant : Int → Nat × Nat

/-- Environment of `reservations.py`: pool availability, one failure flag
per `session.execute` call site, the `properties.timezone` column, the
loaded timezone database, the `reservations` table and the current instant. -/
structure Env where
  poolOk : Bool
  tzQueryFails : Bool
  latestQueryFails : Bool
  revenueQueryFails : Bool
  propertyTz : String → String → Option String
  tzdb : String → Option TZInfo
  reservations : List Reservation
  nowUTC : Int

/-- The dictionary returned by `calculate_monthly_revenue`. -/
structure Summary where
  propertyId : String
  tenantId : String
  total : String
  currency : String
  count : Nat
  month : Option Nat
  year : Option Nat
  timezone : String
deriving DecidableEq

/-- The dictionary returned by `calculate_total_revenue`; it carries no
month, year or timezone fields. -/
structure TotalSummary where
  propertyId : String
  tenantId : String
  total : String
  currency : String
  count : Nat
deriving DecidableEq

/-- Exceptions of the primary path. -/
inductive DBErr where
  | poolUnavailable
  | queryFailure
  | tzFailure
  | dateError
deriving DecidableEq

/-- Model of `_get_property_timezone`: `timezone_name or "UTC"` (a missing
row, a NULL column and an empty string all yield "UTC"). -/
def tzNameOf (env : Env) (pid tid : String) : String :=
  match env.propertyTz pid tid with
  | some t => if t = "" then "UTC" else t
  | none => "UTC"

/-- Model of the `try: ZoneInfo(property_tz) except: property_tz = "UTC"`
block: load the named zone, fall back to loading "UTC"; if even that load
fails the exception escapes to the outer handler (`none`). -/
def resolveTz (env : Env) (name : String) : Option (String × TZInfo) :=
  match env.tzdb name with
  | some z => some (name, z)
  | none =>
    match env.tzdb "UTC" with
    | some z => some ("UTC", z)
    | none => none

/-- Model of `_get_latest_check_in`: `SELECT MAX(check_in_date)` over the
reservations of the property and tenant (`NULL`, i.e. `none`, when no row
matches). -/
def latestCheckIn (env : Env) (pid tid : String) : Option Int :=
  ((env.reservations.filter fun r => r.propertyId == pid && r.tenantId == tid).map
    Reservation.checkIn).max?

/-- Month boundaries of `calculate_monthly_revenue`: local midnight of day
1 of the month, and of day 1 of the following month (December rolls into
January of `year + 1`), both converted to UTC. -/
def monthWindow (z : TZInfo) (year month : Nat) : Int × Int :=
  (z.midnightToUTC year month,
   if month < 12 then z.midnightToUTC year (month + 1) else z.midnightToUTC (year + 1) 1)

/-- Rows selected by the revenue query: matching property and tenant with
`check_in_date >= start` and `check_in_date < end`. -/
def revenueRows (env : Env) (pid tid : String) (startUtc endUtc : Int) : List Reservation :=
  env.reservations.filter fun r =>
    r.propertyId == pid && r.tenantId == tid &&
      decide (startUtc ≤ r.checkIn) && decide (r.checkIn < endUtc)

/-- Value of `SUM(total_amount)` over the selected rows: `NULL` (`none`)
when no row matches, otherwise the exact decimal sum. -/
def sumOfWindow (env : Env) (pid tid : String) (startUtc endUtc : Int) : Option Dec :=
  let rows := revenueRows env pid tid startUtc endUtc
  if rows.isEmpty then none else some (sumDec (rows.map Reservation.amount))

/-- The `total` string computed on the primary path: null-to-zero, exact
quantisation with `ROUND_HALF_UP`, two-digit formatting. -/
def monthlyTotalStr (env : Env) (pid tid : String) (startUtc endUtc : Int) : String :=
  format_decimal (quantizeHalfUp (pyOrDec (sumOfWindow env pid tid startUtc endUtc)))

/-- Rest of the primary path once (month, year) are resolved: `datetime`
construction (which validates the month and year ranges), the revenue
query and the summary dictionary.  Errors carry the Python values of the
`month` / `year` variables at raise time. -/
def finishMonthly (env : Env) (pid tid : String) (month year : Nat) (ptz : String)
    (z : TZInfo) : Except (DBErr × Option Nat × Option Nat) Summary :=
  if month < 1 || 12 < month || year < 1 || 9999 < year || (month == 12 && year == 9999) then
    .error (.dateError, some month, some year)
  else if env.revenueQueryFails then .error (.queryFailure, some month, some year)
  else
    let w := monthWindow z year month
    .ok ⟨pid, tid, monthlyTotalStr env pid tid w.1 w.2, "USD",
         (revenueRows env pid tid w.1 w.2).length, some month, some year, ptz⟩

/-- The body of the `try` block of `calculate_monthly_revenue`: pool
check, timezone resolution, month/year resolution and aggregation.  An
`error` value is the exception reaching the outer `except` handler. -/
def primaryMonthly (env : Env) (pid tid : String) (m? y? : Option Nat) :
    Except (DBErr × Option Nat × Option Nat) Summary :=
  if !env.poolOk then .error (.poolUnavailable, m?, y?)
  else if env.tzQueryFails then .error (.queryFailure, m?, y?)
  else
    match resolveTz env (tzNameOf env pid tid) with
    | none => .error (.tzFailure, m?, y?)
    | some (ptz, z) =>
      if pyTruthy m? && pyTruthy y? then
        finishMonthly env pid tid (m?.getD 0) (y?.getD 0) ptz z
      else if env.latestQueryFails then .error (.queryFailure, m?, y?)
      else
        match latestCheckIn env pid tid with
        | some t =>
          let p := z.yearMonthOfInstant t
          finishMonthly env pid tid p.2 p.1 ptz z
        | none =>
          let p := z.yearMonthOfInstant env.nowUTC
          finishMonthly env pid tid (pyOr m? p.2) (pyOr y? p.1) ptz z

/-- The hardcoded fallback table of `calculate_monthly_revenue`
(`mock_data`), keyed by property id. -/
def mock_data : List (String × String × Nat) :=
  [("prop-001", "1000.00", 3), ("prop-002", "4975.50", 4), ("prop-003", "6100.50", 2),
   ("prop-004", "1776.50", 4), ("prop-005", "3256.00", 3)]

/-- Model of `mock_data.get(property_id, {"total": "0.00", "count": 0})`. -/
def mockLookup (tbl : List (String × String × Nat)) (pid : String) : String × Nat :=
  match tbl.find? (fun x => x.1 == pid) with
  | some x => (x.2.1, x.2.2)
  | none => ("0.00", 0)

/-- The summary built by the `except` handler of
`calculate_monthly_revenue`, with the `month` / `year` variable values at
raise time. -/
def mockSummary (pid tid : String) (m? y? : Option Nat) : Summary :=
  ⟨pid, tid, (mockLookup mock_data pid).1, "USD", (mockLookup mock_data pid).2,
   m?, y?, "UTC"⟩

/-- Embedding of `calculate_monthly_revenue`: run the primary path; any
exception is caught and converted to the fallback summary. -/
def calculate_monthly_revenue (env : Env) (pid tid : String) (m? y? : Option Nat) : Summary :=
  match primaryMonthly env pid tid m? y? with
  | .ok s => s
  | .error e => mockSummary pid tid e.2.1 e.2.2

/-- Rows selected by the all-time query of `calculate_total_revenue`. -/
def allRows (env : Env) (pid tid : String) : List Reservation :=
  env.reservations.filter fun r => r.propertyId == pid && r.tenantId == tid

/-- The body of the `try` block of `calculate_total_revenue`: pool check,
all-time aggregation (grouped by property, so a property with no rows
yields no row and the zero summary). -/
def primaryTotal (env : Env) (pid tid : String) : Except DBErr TotalSummary :=
  if !env.poolOk then .error .poolUnavailable
  else if env.revenueQueryFails then .error .queryFailure
  else
    let rows := allRows env pid tid
    if rows.isEmpty then .ok ⟨pid, tid, "0.00", "USD", 0⟩
    else
      .ok ⟨pid, tid,
           format_decimal (quantizeHalfUp (pyOrDec (some (sumDec (rows.map Reservation.amount))))),
           "USD", rows.length⟩

/-- The hardcoded fallback table of `calculate_total_revenue` — a second
literal copy in the source, embedded separately. -/
def mock_data_total : List (String × String × Nat) :=
  [("prop-001", "1000.00", 3), ("prop-002", "4975.50", 4), ("prop-003", "6100.50", 2),
   ("prop-004", "1776.50", 4), ("prop-005", "3256.00", 3)]

/-- Embedding of `calculate_total_revenue`. -/
def calculate_total_revenue (env : Env) (pid tid : String) : TotalSummary :=
  match primaryTotal env pid tid with
  | .ok s => s
  | .error _ =>
    ⟨pid, tid, (mockLookup mock_data_total pid).1, "USD", (mockLookup mock_data_total pid).2⟩

/-- Characters needing no JSON escaping in our model (no quote, no
backslash). -/
def simpleChar (c : Char) : Bool := !(c = '"' || c = '\\')

/-- A string whose characters all need no escaping. -/
def simpleStr (s : String) : Bool := s.data.all simpleChar

/-- JSON escaping of one character as done by `json.dumps` on quotes and
backslashes (the only escapes exercised by this code path). -/
def jsonEscapeChar (c : Char) : List Char :=
  if c = '"' || c = '\\' then ['\\', c] else [c]

/-- JSON escaping of a character list. -/
def escapeChars (l : List Char) : List Char := (l.map jsonEscapeChar).flatten

/-- A JSON string literal: quote, escaped body, quote. -/
def jsonStrChars (s : String) : List Char := '"' :: escapeChars s.data ++ ['"']

/-- JSON rendering of an optional integer field (`null` or the decimal
digits), as `json.dumps` prints `None` and `int`. -/
def jsonOptNat (o : Option Nat) : List Char :=
  match o with
  | none => "null".data
  | some n => renderNat n

/-- Model of `json.dumps(result)` on the summary dictionary: keys in the
insertion order of `calculate_monthly_revenue`, default separators. -/
def serializeSummary (s : Summary) : String :=
  ⟨"\x7b\"property_id\": ".data ++ jsonStrChars s.propertyId ++
   ", \"tenant_id\": ".data ++ jsonStrChars s.tenantId ++
   ", \"total\": ".data ++ jsonStrChars s.total ++
   ", \"currency\": ".data ++ jsonStrChars s.currency ++
   ", \"count\": ".data ++ renderNat s.count ++
   ", \"month\": ".data ++ jsonOptNat s.month ++
   ", \"year\": ".data ++ jsonOptNat s.year ++
   ", \"timezone\": ".data ++ jsonStrChars s.timezone ++
   "\x7d".data⟩

/-- Consume an expected literal prefix. -/
def stripLit : List Char → List Char → Option (List Char)
  | [], r => some r
  | _ :: _, [] => none
  | c :: cs, d :: ds => if c = d then stripLit cs ds else none

/-- Read a JSON string body up to its closing quote, undoing escapes. -/
def readStr : List Char → Option (List Char × List Char)
  | [] => none
  | c :: rest =>
    if c = '"' then some ([], rest)
    else if c = '\\' then
      match rest with
      | [] => none
      | d :: rest2 => (readStr rest2).map fun p => (d :: p.1, p.2)
    else (readStr rest).map fun p => (c :: p.1, p.2)

/-- Split a leading run of decimal digits from the rest. -/
def readDigits : List Char → List Char × List Char
  | [] => ([], [])
  | c :: rest =>
    if c.isDigit then
      let p := readDigits rest
      (c :: p.1, p.2)
    else ([], c :: rest)

/-- Numeric value of a digit character. -/
def digitVal (c : Char) : Nat := c.toNat - 48

/-- Value of a most-significant-first digit list. -/
def digitsVal (l : List Char) : Nat := l.foldl (fun a c => 10 * a + digitVal c) 0

/-- Read a decimal natural number (at least one digit). -/
def readNat (l : List Char) : Option (Nat × List Char) :=
  let p := readDigits l
  if p.1.isEmpty then none else some (digitsVal p.1, p.2)

/-- Read an optional integer field: `null` or digits. -/
def readOptNat (l : List Char) : Option (Option Nat × List Char) :=
  match stripLit "null".data l with
  | some r => some (none, r)
  | none => (readNat l).map fun p => (some p.1, p.2)

/-- Read a labelled JSON string field (literal prefix ending in the
opening quote, then the string body). -/
def readStrField (lit : String) (l : List Char) : Option (List Char × List Char) :=
  (stripLit lit.data l).bind readStr

/-- Read a labelled optional-integer field. -/
def readOptNatField (lit : String) (l : List Char) : Option (Option Nat × List Char) :=
  (stripLit lit.data l).bind readOptNat

/-- Model of `json.loads` specialised to the summary shape produced by
`serializeSummary` (the only strings this code path ever stores):
`none` models a `json.loads` failure or shape mismatch. -/
def deserializeSummary (s : String) : Option Summary := do
  let p1 ← readStrField "\x7b\"property_id\": \"" s.data
  let p2 ← readStrField ", \"tenant_id\": \"" p1.2
  let p3 ← readStrField ", \"total\": \"" p2.2
  let p4 ← readStrField ", \"currency\": \"" p3.2
  let r5 ← stripLit ", \"count\": ".data p4.2
  let p5 ← readNat r5
  let p6 ← readOptNatField ", \"month\": " p5.2
  let p7 ← readOptNatField ", \"year\": " p6.2
  let p8 ← readStrField ", \"timezone\": \"" p7.2
  let r9 ← stripLit "\x7d".data p8.2
  if r9.isEmpty then
    some ⟨⟨p1.1⟩, ⟨p2.1⟩, ⟨p3.1⟩, ⟨p4.1⟩, p5.1, p6.1, p7.1, ⟨p8.1⟩⟩
  else none

/-- State of the redis store: entries (key, ttl seconds, value), most
recent write first. -/
structure CacheState where
  entries : List (String × Nat × String)
deriving DecidableEq

/-- Model of `redis_client.get(key)` on a reachable server. -/
def cacheLookup (st : CacheState) (k : String) : Option String :=
  match st.entries.find? (fun e => e.1 == k) with
  | some e => some e.2.2
  | none => none

/-- Model of `redis_client.setex(key, ttl, value)` on a reachable server
(later writes shadow earlier ones). -/
def cacheInsert (st : CacheState) (k : String) (ttl : Nat) (v : String) : CacheState :=
  ⟨(k, ttl, v) :: st.entries⟩

/-- Exceptions escaping `get_revenue_summary`. -/
inductive CacheErr where
  | cacheReadFailure
  | cacheWriteFailure
  | jsonDecodeFailure
deriving DecidableEq

/-- Failure flags of the redis client: whether `get` / `setex` raise
(connection errors etc.). -/
structure CacheEnv where
  getFails : Bool
  setFails : Bool

/-- Model of the scope part of the cache key:
`f"{year}-{month}" if month and year else "latest"`. -/
def cache_scope (m? y? : Option Nat) : String :=
  if pyTruthy m? && pyTruthy y? then
    ⟨renderNat (y?.getD 0) ++ '-' :: renderNat (m?.getD 0)⟩
  else "latest"

/-- Model of the cache key `f"revenue:{tenant_id}:{property_id}:{cache_scope}"`. -/
def cache_key (pid tid : String) (m? y? : Option Nat) : String :=
  "revenue:" ++ tid ++ ":" ++ pid ++ ":" ++ cache_scope m? y?

/-- Embedding of `get_revenue_summary` from `cache.py`.  The result carries
the summary, the cache state after the call, and how many times the
aggregator `calculate_monthly_revenue` was invoked during the call; an
`error` value is an uncaught exception propagating to the caller (the
function body contains no exception handler). -/
def get_revenue_summary (cenv : CacheEnv) (env : Env) (st : CacheState)
    (pid tid : String) (m? y? : Option Nat) :
    Except CacheErr (Summary × CacheState × Nat) :=
  let key := cache_key pid tid m? y?
  if cenv.getFails then .error .cacheReadFailure
  else
    match cacheLookup st key with
    | some c =>
      if c = "" then
        if cenv.setFails then .error .cacheWriteFailure
        else
          let result := calculate_monthly_revenue env pid tid m? y?
          .ok (result, cacheInsert st key 300 (serializeSummary result), 1)
      else
        match deserializeSummary c with
        | some s => .ok (s, st, 0)
        | none => .error .jsonDecodeFailure
    | none =>
      if cenv.setFails then .error .cacheWriteFailure
      else
        let result := calculate_monthly_revenue env pid tid m? y?
        .ok (result, cacheInsert st key 300 (serializeSummary result), 1)

/-- A concrete environment whose database pool is unavailable. -/
def envDown : Env :=
  ⟨false, false, false, false, fun _ _ => none, fun _ => none, [], 0⟩

/-- A concrete timezone for witnesses: instants are `year * 100 + month`. -/
def tz0 : TZInfo :=
  ⟨fun y m => (y : Int) * 100 + (m : Int), fun t => (t.toNat / 100, t.toNat % 100)⟩

/-- A concrete healthy environment with one reservation of 10.005 USD
checked in inside March 2024. -/
def envUp : Env :=
  ⟨true, false, false, false, fun _ _ => some "UTC", fun _ => some tz0,
   [⟨"p1", "t1", 202403, ⟨10005, 3⟩⟩], 202510⟩

/-- Local month/year sanity of a zoneinfo result, as guaranteed by Python
`datetime` (month in 1..12; year small enough that `datetime(year + 1, 1, 1)`
also exists). -/
def validYM (p : Nat × Nat) : Bool :=
  1 ≤ p.2 && p.2 ≤ 12 && 1 ≤ p.1 && p.1 ≤ 9998

/-- The timezone column values of an environment contain no character that
JSON would escape. -/
def envTzSimple (env : Env) : Prop :=
  ∀ p t s, env.propertyTz p t = some s → simpleStr s = true

theorem digitChar_isDigit (n : Nat) : (digitChar n).isDigit = true := by
  unfold digitChar
  split_ifs <;> decide

theorem digitChar_simple (n : Nat) : simpleChar (digitChar n) = true := by
  unfold digitChar
  split_ifs <;> decide

theorem digitVal_digitChar : ∀ n, n < 10 → digitVal (digitChar n) = n := by
  decide

theorem renderNat_ne_nil (n : Nat) : renderNat n ≠ [] := by
  unfold renderNat
  split <;> simp

theorem renderNat_all_digits (n : Nat) : (renderNat n).all Char.isDigit = true := by
  induction n using Nat.strong_induction_on with
  | _ n ih =>
    unfold renderNat
    split
    · simp [digitChar_isDigit]
    · rename_i h
      rw [List.all_append]
      refine Bool.and_eq_true_iff.mpr ⟨ih (n / 10) (Nat.div_lt_self (by omega) (by omega)), ?_⟩
      simp [digitChar_isDigit]

theorem renderNat_all_simple (n : Nat) : (renderNat n).all simpleChar = true := by
  induction n using Nat.strong_induction_on with
  | _ n ih =>
    unfold renderNat
    split
    · simp [digitChar_simple]
    · rename_i h
      rw [List.all_append]
      refine Bool.and_eq_true_iff.mpr ⟨ih (n / 10) (Nat.div_lt_self (by omega) (by omega)), ?_⟩
      simp [digitChar_simple]

theorem digitsVal_append (l : List Char) (c : Char) :
    digitsVal (l ++ [c]) = 10 * digitsVal l + digitVal c := by
  simp [digitsVal, List.foldl_append]

theorem digitsVal_renderNat (n : Nat) : digitsVal (renderNat n) = n := by
  induction n using Nat.strong_induction_on with
  | _ n ih =>
    unfold renderNat
    split
    · rename_i h
      simp [digitsVal, digitVal_digitChar n h]
    · rename_i h
      rw [digitsVal_append, ih (n / 10) (Nat.div_lt_self (by omega) (by omega)),
          digitVal_digitChar (n % 10) (Nat.mod_lt _ (by omega))]
      omega

theorem stripLit_append (l r : List Char) : stripLit l (l ++ r) = some r := by
  induction l with
  | nil => rfl
  | cons c cs ih => simp [stripLit, ih]

theorem escapeChars_simple (l : List Char) (h : l.all simpleChar = true) :
    escapeChars l = l := by
  induction l with
  | nil => rfl
  | cons c cs ih =>
    simp only [List.all_cons, Bool.and_eq_true] at h
    have h1 : ¬c = '"' ∧ ¬c = '\\' := by
      have := h.1
      simpa [simpleChar] using this
    have h2 := ih h.2
    unfold escapeChars at h2 ⊢
    simp [jsonEscapeChar, h1.1, h1.2, h2]

theorem readStr_append (l r : List Char) (h : l.all simpleChar = true) :
    readStr (l ++ '"' :: r) = some (l, r) := by
  induction l with
  | nil =>
    rw [List.nil_append]
    unfold readStr
    simp
  | cons c cs ih =>
    simp only [List.all_cons, Bool.and_eq_true] at h
    have hc := h.1
    simp only [simpleChar, Bool.not_eq_true', Bool.or_eq_false_iff,
      decide_eq_false_iff_not] at hc
    rw [List.cons_append]
    unfold readStr
    simp [hc.1, hc.2, ih h.2]

/-- Head of the remainder is not a digit (true of the empty list). -/
def headNotDigit (l : List Char) : Bool :=
  match l with
  | [] => true
  | c :: _ => !c.isDigit

theorem readDigits_append (ds r : List Char) (hds : ds.all Char.isDigit = true)
    (hr : headNotDigit r = true) : readDigits (ds ++ r) = (ds, r) := by
  induction ds with
  | nil =>
    cases r with
    | nil => rfl
    | cons c cs =>
      simp only [headNotDigit, Bool.not_eq_true'] at hr
      simp [readDigits, hr]
  | cons c cs ih =>
    simp only [List.all_cons, Bool.and_eq_true] at hds
    simp [readDigits, hds.1, ih hds.2]

theorem readNat_render (n : Nat) (r : List Char) (hr : headNotDigit r = true) :
    readNat (renderNat n ++ r) = some (n, r) := by
  rw [readNat]
  rw [readDigits_append _ _ (renderNat_all_digits n) hr]
  have hne := renderNat_ne_nil n
  simp [List.isEmpty_iff, hne, digitsVal_renderNat]

theorem readOptNat_none (r : List Char) : readOptNat ("null".data ++ r) = some (none, r) := by
  unfold readOptNat
  rw [stripLit_append]

theorem readOptNat_some (n : Nat) (r : List Char) (hr : headNotDigit r = true) :
    readOptNat (renderNat n ++ r) = some (some n, r) := by
  have hnull : stripLit "null".data (renderNat n ++ r) = none := by
    obtain ⟨c, cs, hc⟩ : ∃ c cs, renderNat n = c :: cs := by
      cases h : renderNat n with
      | nil => exact absurd h (renderNat_ne_nil n)
      | cons c cs => exact ⟨c, cs, rfl⟩
    have hdig : c.isDigit = true := by
      have := renderNat_all_digits n
      rw [hc] at this
      simp only [List.all_cons, Bool.and_eq_true] at this
      exact this.1
    have hcn : ('n' = c) = False := by
      simp only [eq_iff_iff, iff_false]
      intro hEq
      rw [← hEq] at hdig
      simp [Char.isDigit] at hdig
    rw [hc]
    show stripLit ('n' :: "ull".data) (c :: (cs ++ r)) = none
    simp [stripLit, hcn]
  simp [readOptNat, hnull, readNat_render n r hr]

theorem headNotDigit_cons (c : Char) (l : List Char) (h : c.isDigit = false) :
    headNotDigit (c :: l) = true := by
  simp [headNotDigit, h]

theorem readStrField_round (lit : String) (a : List Char) (body : String) (r : List Char)
    (hlit : lit.data = a ++ ['"']) (hb : simpleStr body = true) :
    readStrField lit (a ++ (jsonStrChars body ++ r)) = some (body.data, r) := by
  unfold readStrField jsonStrChars
  rw [hlit, escapeChars_simple body.data hb]
  have hshape : a ++ ((('"' :: body.data) ++ ['"']) ++ r) = (a ++ ['"']) ++ (body.data ++ '"' :: r) := by
    simp
  rw [hshape, stripLit_append]
  simpa using readStr_append body.data r hb

theorem readOptNatField_round (lit : String) (o : Option Nat) (r : List Char)
    (hr : headNotDigit r = true) :
    readOptNatField lit (lit.data ++ (jsonOptNat o ++ r)) = some (o, r) := by
  unfold readOptNatField
  rw [stripLit_append]
  cases o with
  | none => simpa [jsonOptNat] using readOptNat_none r
  | some n => simpa [jsonOptNat] using readOptNat_some n r hr

theorem stripLit_self (l : List Char) : stripLit l l = some [] := by
  simpa using stripLit_append l []

theorem deserialize_serialize (s : Summary)
    (h1 : simpleStr s.propertyId = true) (h2 : simpleStr s.tenantId = true)
    (h3 : simpleStr s.total = true) (h4 : simpleStr s.currency = true)
    (h5 : simpleStr s.timezone = true) :
    deserializeSummary (serializeSummary s) = some s := by
  have hm : ∀ x : List Char, headNotDigit (", \"month\": ".data ++ x) = true := by
    intro x
    rw [show (", \"month\": ".data = ',' :: " \"month\": ".data) from rfl, List.cons_append]
    exact headNotDigit_cons _ _ (by decide)
  have hy : ∀ x : List Char, headNotDigit (", \"year\": ".data ++ x) = true := by
    intro x
    rw [show (", \"year\": ".data = ',' :: " \"year\": ".data) from rfl, List.cons_append]
    exact headNotDigit_cons _ _ (by decide)
  have ht : ∀ x : List Char, headNotDigit (", \"timezone\": ".data ++ x) = true := by
    intro x
    rw [show (", \"timezone\": ".data = ',' :: " \"timezone\": ".data) from rfl, List.cons_append]
    exact headNotDigit_cons _ _ (by decide)
  unfold deserializeSummary serializeSummary
  simp only [List.append_assoc]
  rw [readStrField_round _ (String.data "\x7b\"property_id\": ") _ _ (by decide) h1]
  simp only [Option.bind_eq_bind', Option.some_bind]
  rw [readStrField_round _ (String.data ", \"tenant_id\": ") _ _ (by decide) h2]
  simp only [Option.bind_eq_bind', Option.some_bind]
  rw [readStrField_round _ (String.data ", \"total\": ") _ _ (by decide) h3]
  simp only [Option.bind_eq_bind', Option.some_bind]
  rw [readStrField_round _ (String.data ", \"currency\": ") _ _ (by decide) h4]
  simp only [Option.bind_eq_bind', Option.some_bind]
  rw [stripLit_append]
  simp only [Option.bind_eq_bind', Option.some_bind]
  rw [readNat_render _ _ (hm _)]
  simp only [Option.bind_eq_bind', Option.some_bind]
  rw [readOptNatField_round _ _ _ (hy _)]
  simp only [Option.bind_eq_bind', Option.some_bind]
  rw [readOptNatField_round _ _ _ (ht _)]
  simp only [Option.bind_eq_bind', Option.some_bind]
  rw [readStrField_round _ (String.data ", \"timezone\": ") _ _ (by decide) h5]
  simp only [Option.bind_eq_bind', Option.some_bind]
  rw [stripLit_self]
  rfl

theorem format_decimal_ne_empty (c : Cents) : format_decimal c ≠ "" := by
  unfold format_decimal
  intro h
  have h2 := congrArg String.data h
  simp [twoDigitChars] at h2

theorem format_decimal_twoFrac (c : Cents) : twoFracDigits (format_decimal c) = true := by
  unfold twoFracDigits format_decimal twoDigitChars
  simp [List.reverse_append, digitChar_isDigit]

theorem digitChar_not_special (n : Nat) : ¬digitChar n = '"' ∧ ¬digitChar n = '\\' := by
  have h := digitChar_simple n
  simpa [simpleChar] using h

theorem format_decimal_simple (c : Cents) : simpleStr (format_decimal c) = true := by
  unfold simpleStr format_decimal
  cases hn : c.neg <;>
    simp [List.all_append, twoDigitChars, renderNat_all_simple, digitChar_simple,
      simpleChar] <;>
    exact ⟨digitChar_not_special _, digitChar_not_special _⟩

theorem quantize_exact (d : Dec) (he : d.e ≤ 2) :
    (quantizeHalfUp d).cents = d.m.natAbs * 10 ^ (2 - d.e) := by
  unfold quantizeHalfUp
  simp [he]

theorem quantize_halfup_spec (d : Dec) (he : 2 ≤ d.e) :
    2 * (quantizeHalfUp d).cents * 10 ^ (d.e - 2) ≤ 2 * d.m.natAbs + 10 ^ (d.e - 2) ∧
    2 * d.m.natAbs < 2 * (quantizeHalfUp d).cents * 10 ^ (d.e - 2) + 10 ^ (d.e - 2) := by
  rcases Nat.lt_or_ge d.e 3 with h3 | h3
  · have he2 : d.e = 2 := by omega
    unfold quantizeHalfUp
    simp [he2]
  · have hnot : ¬ d.e ≤ 2 := by omega
    unfold quantizeHalfUp
    simp only [hnot, if_false]
    obtain ⟨k, hk⟩ : ∃ k, d.e - 2 = k + 1 := ⟨d.e - 3, by omega⟩
    have h10 : 10 ^ (d.e - 2) = 2 * (5 * 10 ^ k) := by
      rw [hk, pow_succ]
      ring
    have hDpos : 0 < 10 ^ (d.e - 2) := pow_pos (by norm_num) _
    have hdm := Nat.div_add_mod (d.m.natAbs + 10 ^ (d.e - 2) / 2) (10 ^ (d.e - 2))
    have hmod : (d.m.natAbs + 10 ^ (d.e - 2) / 2) % 10 ^ (d.e - 2) < 10 ^ (d.e - 2) :=
      Nat.mod_lt _ hDpos
    have hrw : 2 * ((d.m.natAbs + 10 ^ (d.e - 2) / 2) / 10 ^ (d.e - 2)) * 10 ^ (d.e - 2) =
        2 * (10 ^ (d.e - 2) * ((d.m.natAbs + 10 ^ (d.e - 2) / 2) / 10 ^ (d.e - 2))) := by
      ring
    rw [hrw]
    generalize hp : 10 ^ (d.e - 2) * ((d.m.natAbs + 10 ^ (d.e - 2) / 2) / 10 ^ (d.e - 2)) = p
      at hdm ⊢
    generalize hr : (d.m.natAbs + 10 ^ (d.e - 2) / 2) % 10 ^ (d.e - 2) = r at hdm hmod
    generalize hDD : 10 ^ (d.e - 2) = D at hdm hmod h10 ⊢
    omega

theorem mockLookup_mem (pid : String) :
    mockLookup mock_data pid ∈
      [("1000.00", 3), ("4975.50", 4), ("6100.50", 2), ("1776.50", 4), ("3256.00", 3),
       ("0.00", 0)] := by
  unfold mockLookup
  cases h : mock_data.find? (fun x => x.1 == pid) with
  | none => simp
  | some x =>
    have hx := List.mem_of_find?_eq_some h
    simp only [mock_data, List.mem_cons, List.not_mem_nil, or_false] at hx
    rcases hx with rfl | rfl | rfl | rfl | rfl <;> simp

theorem mock_total_ne_empty (pid : String) : (mockLookup mock_data pid).1 ≠ "" := by
  have h := mockLookup_mem pid
  simp only [List.mem_cons, List.not_mem_nil, or_false] at h
  rcases h with h | h | h | h | h | h <;> rw [h] <;> decide

theorem mock_total_simple (pid : String) : simpleStr (mockLookup mock_data pid).1 = true := by
  have h := mockLookup_mem pid
  simp only [List.mem_cons, List.not_mem_nil, or_false] at h
  rcases h with h | h | h | h | h | h <;> rw [h] <;> decide

theorem finishMonthly_ok_shape (env : Env) (pid tid : String) (mo yr : Nat) (ptz : String)
    (z : TZInfo) (s : Summary) (h : finishMonthly env pid tid mo yr ptz z = .ok s) :
    s = ⟨pid, tid, monthlyTotalStr env pid tid (monthWindow z yr mo).1 (monthWindow z yr mo).2,
         "USD", (revenueRows env pid tid (monthWindow z yr mo).1 (monthWindow z yr mo).2).length,
         some mo, some yr, ptz⟩ := by
  unfold finishMonthly at h
  split at h
  · exact Except.noConfusion h
  · split at h
    · exact Except.noConfusion h
    · exact (Except.ok.inj h).symm

theorem resolveTz_name (env : Env) (n ptz : String) (z : TZInfo)
    (h : resolveTz env n = some (ptz, z)) : ptz = n ∨ ptz = "UTC" := by
  unfold resolveTz at h
  cases h1 : env.tzdb n with
  | some z1 =>
    rw [h1] at h
    injection h with h3
    exact Or.inl (congrArg Prod.fst h3).symm
  | none =>
    rw [h1] at h
    cases h2 : env.tzdb "UTC" with
    | some z2 =>
      rw [h2] at h
      injection h with h3
      exact Or.inr (congrArg Prod.fst h3).symm
    | none =>
      rw [h2] at h
      exact Option.noConfusion h

theorem finishMonthly_fields (env : Env) (pid tid : String) (mo yr : Nat) (ptz : String)
    (z : TZInfo) (s : Summary) (h : finishMonthly env pid tid mo yr ptz z = .ok s) :
    s.propertyId = pid ∧ s.tenantId = tid ∧ s.currency = "USD" ∧
    (∃ w1 w2, s.total = monthlyTotalStr env pid tid w1 w2) ∧ s.timezone = ptz := by
  have hs := finishMonthly_ok_shape env pid tid mo yr ptz z s h
  subst hs
  exact ⟨rfl, rfl, rfl, ⟨_, _, rfl⟩, rfl⟩

theorem primary_ok_shape (env : Env) (pid tid : String) (m? y? : Option Nat) (s : Summary)
    (h : primaryMonthly env pid tid m? y? = .ok s) :
    s.propertyId = pid ∧ s.tenantId = tid ∧ s.currency = "USD" ∧
    (∃ w1 w2, s.total = monthlyTotalStr env pid tid w1 w2) ∧
    (s.timezone = tzNameOf env pid tid ∨ s.timezone = "UTC") := by
  unfold primaryMonthly at h
  split at h
  · exact Except.noConfusion h
  · split at h
    · exact Except.noConfusion h
    · split at h
      · exact Except.noConfusion h
      · rename_i ptz z heq
        have hname := resolveTz_name env (tzNameOf env pid tid) ptz z heq
        split at h
        · obtain ⟨h1, h2, h3, h4, h5⟩ := finishMonthly_fields _ _ _ _ _ _ _ _ h
          refine ⟨h1, h2, h3, h4, ?_⟩
          rw [h5]
          exact hname
        · split at h
          · exact Except.noConfusion h
          · split at h
            · obtain ⟨h1, h2, h3, h4, h5⟩ := finishMonthly_fields _ _ _ _ _ _ _ _ h
              refine ⟨h1, h2, h3, h4, ?_⟩
              rw [h5]
              exact hname
            · obtain ⟨h1, h2, h3, h4, h5⟩ := finishMonthly_fields _ _ _ _ _ _ _ _ h
              refine ⟨h1, h2, h3, h4, ?_⟩
              rw [h5]
              exact hname

theorem calculate_total_simple (env : Env) (pid tid : String) (m? y? : Option Nat) :
    simpleStr (calculate_monthly_revenue env pid tid m? y?).total = true := by
  unfold calculate_monthly_revenue
  cases h : primaryMonthly env pid tid m? y? with
  | ok s =>
    obtain ⟨-, -, -, ⟨w1, w2, htot⟩, -⟩ := primary_ok_shape env pid tid m? y? s h
    simpa [htot, monthlyTotalStr] using format_decimal_simple _
  | error e =>
    simpa [mockSummary] using mock_total_simple pid

theorem calculate_total_ne_empty (env : Env) (pid tid : String) (m? y? : Option Nat) :
    (calculate_monthly_revenue env pid tid m? y?).total ≠ "" := by
  unfold calculate_monthly_revenue
  cases h : primaryMonthly env pid tid m? y? with
  | ok s =>
    obtain ⟨-, -, -, ⟨w1, w2, htot⟩, -⟩ := primary_ok_shape env pid tid m? y? s h
    simpa [htot, monthlyTotalStr] using format_decimal_ne_empty _
  | error e =>
    simpa [mockSummary] using mock_total_ne_empty pid

theorem tzNameOf_simple (env : Env) (henv : envTzSimple env) (pid tid : String) :
    simpleStr (tzNameOf env pid tid) = true := by
  unfold tzNameOf
  cases h : env.propertyTz pid tid with
  | none => decide
  | some t =>
    by_cases ht : t = ""
    · simp only [ht, if_true, if_pos]
      decide
    · simp only [ht, if_false]
      exact henv pid tid t h

theorem calculate_tz_simple (env : Env) (henv : envTzSimple env) (pid tid : String)
    (m? y? : Option Nat) :
    simpleStr (calculate_monthly_revenue env pid tid m? y?).timezone = true := by
  unfold calculate_monthly_revenue
  cases h : primaryMonthly env pid tid m? y? with
  | ok s =>
    obtain ⟨-, -, -, -, htz⟩ := primary_ok_shape env pid tid m? y? s h
    rcases htz with h1 | h1 <;> rw [h1]
    · exact tzNameOf_simple env henv pid tid
    · decide
  | error e =>
    simp [mockSummary]
    decide

theorem calculate_ids (env : Env) (pid tid : String) (m? y? : Option Nat) :
    (calculate_monthly_revenue env pid tid m? y?).propertyId = pid ∧
    (calculate_monthly_revenue env pid tid m? y?).tenantId = tid ∧
    (calculate_monthly_revenue env pid tid m? y?).currency = "USD" := by
  unfold calculate_monthly_revenue
  cases h : primaryMonthly env pid tid m? y? with
  | ok s =>
    obtain ⟨h1, h2, h3, -, -⟩ := primary_ok_shape env pid tid m? y? s h
    exact ⟨h1, h2, h3⟩
  | error e =>
    exact ⟨rfl, rfl, rfl⟩

theorem calculate_roundtrip (env : Env) (henv : envTzSimple env) (pid tid : String)
    (m? y? : Option Nat) (hp : simpleStr pid = true) (ht : simpleStr tid = true) :
    deserializeSummary (serializeSummary (calculate_monthly_revenue env pid tid m? y?)) =
      some (calculate_monthly_revenue env pid tid m? y?) := by
  obtain ⟨h1, h2, h3⟩ := calculate_ids env pid tid m? y?
  refine deserialize_serialize _ ?_ ?_ ?_ ?_ ?_
  · rw [h1]; exact hp
  · rw [h2]; exact ht
  · exact calculate_total_simple env pid tid m? y?
  · rw [h3]; decide
  · exact calculate_tz_simple env henv pid tid m? y?

theorem serialize_ne_empty (s : Summary) : serializeSummary s ≠ "" := by
  unfold serializeSummary
  intro h
  have h2 := congrArg String.data h
  rw [show String.data "\x7b\"property_id\": " = '\x7b' :: "\"property_id\": ".data from rfl]
    at h2
  simp at h2

theorem cacheLookup_insert (st : CacheState) (k : String) (ttl : Nat) (v : String) :
    cacheLookup (cacheInsert st k ttl v) k = some v := by
  unfold cacheLookup cacheInsert
  simp [List.find?]

theorem grs_hit (cenv : CacheEnv) (env : Env) (st : CacheState) (pid tid : String)
    (m? y? : Option Nat) (c : String) (s : Summary)
    (hg : cenv.getFails = false)
    (hc : cacheLookup st (cache_key pid tid m? y?) = some c)
    (hne : c ≠ "") (hd : deserializeSummary c = some s) :
    get_revenue_summary cenv env st pid tid m? y? = .ok (s, st, 0) := by
  unfold get_revenue_summary
  simp [hg, hc, hne, hd]

theorem grs_miss (cenv : CacheEnv) (env : Env) (st : CacheState) (pid tid : String)
    (m? y? : Option Nat)
    (hg : cenv.getFails = false) (hs : cenv.setFails = false)
    (hc : cacheLookup st (cache_key pid tid m? y?) = none) :
    get_revenue_summary cenv env st pid tid m? y? =
      .ok (calculate_monthly_revenue env pid tid m? y?,
           cacheInsert st (cache_key pid tid m? y?) 300
             (serializeSummary (calculate_monthly_revenue env pid tid m? y?)), 1) := by
  unfold get_revenue_summary
  simp [hg, hs, hc]

theorem primary_supplied (env : Env) (pid tid : String) (m y : Nat) (ptz : String) (z : TZInfo)
    (hpool : env.poolOk = true) (htzq : env.tzQueryFails = false)
    (hz : resolveTz env (tzNameOf env pid tid) = some (ptz, z))
    (hm : m ≠ 0) (hy : y ≠ 0) :
    primaryMonthly env pid tid (some m) (some y) = finishMonthly env pid tid m y ptz z := by
  unfold primaryMonthly
  simp [hpool, htzq, hz, pyTruthy, hm, hy]

theorem primary_latest (env : Env) (pid tid : String) (m? y? : Option Nat) (ptz : String)
    (z : TZInfo) (t : Int)
    (hpool : env.poolOk = true) (htzq : env.tzQueryFails = false)
    (hz : resolveTz env (tzNameOf env pid tid) = some (ptz, z))
    (hnot : (pyTruthy m? && pyTruthy y?) = false)
    (hlq : env.latestQueryFails = false)
    (hlatest : latestCheckIn env pid tid = some t) :
    primaryMonthly env pid tid m? y? =
      finishMonthly env pid tid (z.yearMonthOfInstant t).2 (z.yearMonthOfInstant t).1 ptz z := by
  unfold primaryMonthly
  simp [hpool, htzq, hz, hnot, hlq, hlatest]

theorem primary_nolatest (env : Env) (pid tid : String) (m? y? : Option Nat) (ptz : String)
    (z : TZInfo)
    (hpool : env.poolOk = true) (htzq : env.tzQueryFails = false)
    (hz : resolveTz env (tzNameOf env pid tid) = some (ptz, z))
    (hnot : (pyTruthy m? && pyTruthy y?) = false)
    (hlq : env.latestQueryFails = false)
    (hlatest : latestCheckIn env pid tid = none) :
    primaryMonthly env pid tid m? y? =
      finishMonthly env pid tid (pyOr m? (z.yearMonthOfInstant env.nowUTC).2)
        (pyOr y? (z.yearMonthOfInstant env.nowUTC).1) ptz z := by
  unfold primaryMonthly
  simp [hpool, htzq, hz, hnot, hlq, hlatest]

theorem finishMonthly_ok (env : Env) (pid tid : String) (mo yr : Nat) (ptz : String)
    (z : TZInfo)
    (hm1 : 1 ≤ mo) (hm2 : mo ≤ 12) (hy1 : 1 ≤ yr) (hy2 : yr ≤ 9998)
    (hrev : env.revenueQueryFails = false) :
    finishMonthly env pid tid mo yr ptz z =
      .ok ⟨pid, tid,
           monthlyTotalStr env pid tid (monthWindow z yr mo).1 (monthWindow z yr mo).2, "USD",
           (revenueRows env pid tid (monthWindow z yr mo).1 (monthWindow z yr mo).2).length,
           some mo, some yr, ptz⟩ := by
  unfold finishMonthly
  have hcond : (mo < 1 || 12 < mo || yr < 1 || 9999 < yr || (mo == 12 && yr == 9999)) = false := by
    simp only [Bool.or_eq_false_iff, decide_eq_false_iff_not, Bool.and_eq_false_iff,
      beq_eq_false_iff_ne, Nat.not_lt]
    refine ⟨⟨⟨⟨hm1, hm2⟩, hy1⟩, by omega⟩, ?_⟩
    rcases eq_or_ne mo 12 with h | h
    · exact Or.inr (by omega)
    · exact Or.inl h
  rw [hcond]
  simp [hrev]

theorem calculate_of_ok (env : Env) (pid tid : String) (m? y? : Option Nat) (s : Summary)
    (h : primaryMonthly env pid tid m? y? = .ok s) :
    calculate_monthly_revenue env pid tid m? y? = s := by
  unfold calculate_monthly_revenue
  rw [h]

theorem calculate_of_error (env : Env) (pid tid : String) (m? y? : Option Nat)
    (e : DBErr × Option Nat × Option Nat)
    (h : primaryMonthly env pid tid m? y? = .error e) :
    calculate_monthly_revenue env pid tid m? y? = mockSummary pid tid e.2.1 e.2.2 := by
  unfold calculate_monthly_revenue
  rw [h]

/-- C1: for every input, `calculate_monthly_revenue` never raises to its
caller — it is a total function into `Summary` — and any failure of the
primary path (pool unavailable, query failure, timezone failure) is caught
internally and converted into the fallback summary, so the caller always
receives a well-formed summary (non-empty total string, non-negative
count). -/
theorem C1_never_raises (env : Env) (pid tid : String) (m? y? : Option Nat) :
    (calculate_monthly_revenue env pid tid m? y?).total ≠ "" ∧
    0 ≤ (calculate_monthly_revenue env pid tid m? y?).count ∧
    ∀ e, primaryMonthly env pid tid m? y? = .error e →
      calculate_monthly_revenue env pid tid m? y? = mockSummary pid tid e.2.1 e.2.2 :=
  ⟨calculate_total_ne_empty env pid tid m? y?, Nat.zero_le _,
   fun e h => calculate_of_error env pid tid m? y? e h⟩

/-- Witness for C1 at a concrete store-unavailable environment. -/
theorem C1_never_raises_witness :
    (calculate_monthly_revenue envDown "prop-009" "t1" none none).total ≠ "" ∧
    calculate_monthly_revenue envDown "prop-009" "t1" none none =
      mockSummary "prop-009" "t1" none none :=
  ⟨(C1_never_raises envDown "prop-009" "t1" none none).1,
   (C1_never_raises envDown "prop-009" "t1" none none).2.2 (.poolUnavailable, none, none) rfl⟩

/-- C7: when the primary path of `calculate_monthly_revenue` raises, the
returned summary comes from the fixed lookup table `mock_data` keyed by
property id, with absent properties yielding total "0.00" and count 0 and
timezone "UTC"; in particular "prop-002" with the store unavailable and no
month/year yields total "4975.50", count 4, currency "USD", timezone
"UTC". -/
theorem C7_fallback_table (env : Env) (pid tid : String) (m? y? : Option Nat) :
    (∀ e, primaryMonthly env pid tid m? y? = .error e →
       calculate_monthly_revenue env pid tid m? y? =
         ⟨pid, tid, (mockLookup mock_data pid).1, "USD", (mockLookup mock_data pid).2,
          e.2.1, e.2.2, "UTC"⟩) ∧
    (pid ∉ ["prop-001", "prop-002", "prop-003", "prop-004", "prop-005"] →
       mockLookup mock_data pid = ("0.00", 0)) ∧
    (env.poolOk = false →
       calculate_monthly_revenue env "prop-002" tid none none =
         ⟨"prop-002", tid, "4975.50", "USD", 4, none, none, "UTC"⟩) := by
  refine ⟨fun e h => calculate_of_error env pid tid m? y? e h, ?_, ?_⟩
  · intro hmem
    simp only [List.mem_cons, List.not_mem_nil, or_false, not_or] at hmem
    obtain ⟨n1, n2, n3, n4, n5⟩ := hmem
    have e1 : (("prop-001" : String) == pid) = false := beq_eq_false_iff_ne.mpr fun h => n1 h.symm
    have e2 : (("prop-002" : String) == pid) = false := beq_eq_false_iff_ne.mpr fun h => n2 h.symm
    have e3 : (("prop-003" : String) == pid) = false := beq_eq_false_iff_ne.mpr fun h => n3 h.symm
    have e4 : (("prop-004" : String) == pid) = false := beq_eq_false_iff_ne.mpr fun h => n4 h.symm
    have e5 : (("prop-005" : String) == pid) = false := beq_eq_false_iff_ne.mpr fun h => n5 h.symm
    unfold mockLookup mock_data
    simp [List.find?, e1, e2, e3, e4, e5]
  · intro hp
    have herr : primaryMonthly env "prop-002" tid none none =
        .error (.poolUnavailable, none, none) := by
      unfold primaryMonthly
      simp [hp]
    rw [calculate_of_error env "prop-002" tid none none _ herr]
    rfl

/-- Witness for C7 at the concrete store-unavailable environment and an
unknown property id. -/
theorem C7_fallback_table_witness :
    calculate_monthly_revenue envDown "prop-002" "t1" none none =
      ⟨"prop-002", "t1", "4975.50", "USD", 4, none, none, "UTC"⟩ ∧
    mockLookup mock_data "prop-999" = ("0.00", 0) :=
  ⟨(C7_fallback_table envDown "prop-002" "t1" none none).2.2 rfl,
   (C7_fallback_table envDown "prop-999" "t1" none none).2.1 (by decide)⟩

/-- C9: `calculate_total_revenue` follows the same fallback policy as
`calculate_monthly_revenue` with an identical fallback lookup table: with
the store unavailable both entrypoints return the same total and count for
every property id, and the all-time summary is a `TotalSummary`, a shape
without month and year fields. -/
theorem C9_total_same_fallback (env : Env) (pid tid : String) (hp : env.poolOk = false) :
    mock_data = mock_data_total ∧
    calculate_total_revenue env pid tid =
      ⟨pid, tid, (mockLookup mock_data_total pid).1, "USD",
       (mockLookup mock_data_total pid).2⟩ ∧
    (calculate_monthly_revenue env pid tid none none).total =
      (calculate_total_revenue env pid tid).total ∧
    (calculate_monthly_revenue env pid tid none none).count =
      (calculate_total_revenue env pid tid).count := by
  have htot : calculate_total_revenue env pid tid =
      ⟨pid, tid, (mockLookup mock_data_total pid).1, "USD",
       (mockLookup mock_data_total pid).2⟩ := by
    unfold calculate_total_revenue primaryTotal
    simp [hp]
  have hmon : calculate_monthly_revenue env pid tid none none =
      mockSummary pid tid none none :=
    calculate_of_error env pid tid none none (.poolUnavailable, none, none)
      (by unfold primaryMonthly; simp [hp])
  refine ⟨rfl, htot, ?_, ?_⟩ <;> rw [htot, hmon] <;> rfl

/-- Witness for C9 at a concrete store-unavailable environment. -/
theorem C9_total_same_fallback_witness :
    (calculate_monthly_revenue envDown "prop-003" "t1" none none).total =
      (calculate_total_revenue envDown "prop-003" "t1").total ∧
    (calculate_monthly_revenue envDown "prop-003" "t1" none none).count =
      (calculate_total_revenue envDown "prop-003" "t1").count :=
  ⟨(C9_total_same_fallback envDown "prop-003" "t1" rfl).2.2.1,
   (C9_total_same_fallback envDown "prop-003" "t1" rfl).2.2.2⟩

/-- C6 counterexample: with the redis client raising on `get` (server
unreachable) and a healthy aggregation fallback, `get_revenue_summary`
propagates the cache failure to its caller instead of recovering — the
claim that a cache failure never surfaces is false. -/
theorem C6_counterexample :
    get_revenue_summary ⟨true, false⟩ envDown ⟨[]⟩ "prop-001" "t1" none none =
      .error .cacheReadFailure := rfl

/-- C6 amended: a cache failure does surface to the caller of
`get_revenue_summary` — a cache read failure raises before any
computation is attempted, and a cache write failure raises after the
aggregator has computed; the function body contains no exception
handling for the cache. -/
theorem C6_amended (cenv : CacheEnv) (env : Env) (st : CacheState) (pid tid : String)
    (m? y? : Option Nat) :
    (cenv.getFails = true →
       get_revenue_summary cenv env st pid tid m? y? = .error .cacheReadFailure) ∧
    (cenv.getFails = false → cenv.setFails = true →
       cacheLookup st (cache_key pid tid m? y?) = none →
       get_revenue_summary cenv env st pid tid m? y? = .error .cacheWriteFailure) := by
  constructor
  · intro hg
    unfold get_revenue_summary
    simp [hg]
  · intro hg hs hc
    unfold get_revenue_summary
    simp [hg, hs, hc]

/-- Witness for the amended C6 at concrete failing cache clients. -/
theorem C6_amended_witness :
    get_revenue_summary ⟨true, false⟩ envDown ⟨[]⟩ "prop-004" "t1" none none =
      .error .cacheReadFailure ∧
    get_revenue_summary ⟨false, true⟩ envDown ⟨[]⟩ "prop-004" "t1" none none =
      .error .cacheWriteFailure :=
  ⟨(C6_amended ⟨true, false⟩ envDown ⟨[]⟩ "prop-004" "t1" none none).1 rfl,
   (C6_amended ⟨false, true⟩ envDown ⟨[]⟩ "prop-004" "t1" none none).2 rfl rfl rfl⟩

/-- C5: the cache key is exactly
`"revenue:{tenant_id}:{property_id}:{scope}"` with scope
`"{year}-{month}"` when both month and year are present (and in range)
and the literal `"latest"` otherwise; consequently the "latest" key and
any explicit-period key for the same property and tenant are distinct. -/
theorem C5_cache_key (pid tid : String) (m y : Nat) (hm : m ≠ 0) (hy : y ≠ 0) :
    cache_key pid tid (some m) (some y) =
      "revenue:" ++ tid ++ ":" ++ pid ++ ":" ++ renderNatStr y ++ "-" ++ renderNatStr m ∧
    (∀ m? y? : Option Nat, m? = none ∨ y? = none →
       cache_key pid tid m? y? = "revenue:" ++ tid ++ ":" ++ pid ++ ":" ++ "latest") ∧
    cache_key pid tid none none ≠ cache_key pid tid (some m) (some y) := by
  have hscope : cache_scope (some m) (some y) = ⟨renderNat y ++ '-' :: renderNat m⟩ := by
    unfold cache_scope
    simp [pyTruthy, hm, hy]
  refine ⟨?_, ?_, ?_⟩
  · unfold cache_key
    rw [hscope]
    apply String.ext
    simp [String.data_append, renderNatStr]
  · intro m? y? h
    unfold cache_key cache_scope
    rcases h with rfl | rfl
    · rfl
    · simp [pyTruthy, Bool.and_false]
  · intro h
    unfold cache_key at h
    have hdata := congrArg String.data h
    rw [hscope] at hdata
    simp only [String.data_append] at hdata
    have hcancel := List.append_cancel_left hdata
    have hmem : '-' ∈ String.data "latest" := by
      rw [show String.data (cache_scope none none) = String.data "latest" from rfl] at hcancel
      rw [hcancel]
      simp
    simp at hmem

/-- C3: for every valid supplied (month, year) with the store reachable,
the query interval is half-open — start is local midnight on day 1 of
(year, month) converted to UTC, end is local midnight on day 1 of the
following month converted to UTC with December rolling into January of
year + 1 — and the revenue query selects exactly the reservations of the
property and tenant with start ≤ check-in < end. -/
theorem C3_month_window (env : Env) (pid tid : String) (m y : Nat) (ptz : String) (z : TZInfo)
    (hpool : env.poolOk = true) (htzq : env.tzQueryFails = false)
    (hrev : env.revenueQueryFails = false)
    (hz : resolveTz env (tzNameOf env pid tid) = some (ptz, z))
    (hm1 : 1 ≤ m) (hm2 : m ≤ 12) (hy1 : 1 ≤ y) (hy2 : y ≤ 9998) :
    calculate_monthly_revenue env pid tid (some m) (some y) =
      ⟨pid, tid,
       monthlyTotalStr env pid tid (z.midnightToUTC y m)
         (if m = 12 then z.midnightToUTC (y + 1) 1 else z.midnightToUTC y (m + 1)),
       "USD",
       (revenueRows env pid tid (z.midnightToUTC y m)
         (if m = 12 then z.midnightToUTC (y + 1) 1 else z.midnightToUTC y (m + 1))).length,
       some m, some y, ptz⟩ ∧
    ∀ r, r ∈ revenueRows env pid tid (z.midnightToUTC y m)
          (if m = 12 then z.midnightToUTC (y + 1) 1 else z.midnightToUTC y (m + 1)) ↔
        r ∈ env.reservations ∧ r.propertyId = pid ∧ r.tenantId = tid ∧
          z.midnightToUTC y m ≤ r.checkIn ∧
          r.checkIn < (if m = 12 then z.midnightToUTC (y + 1) 1 else z.midnightToUTC y (m + 1)) := by
  have hwin : monthWindow z y m =
      (z.midnightToUTC y m,
       if m = 12 then z.midnightToUTC (y + 1) 1 else z.midnightToUTC y (m + 1)) := by
    unfold monthWindow
    rcases eq_or_ne m 12 with h | h
    · simp [h]
    · have hlt : m < 12 := by omega
      simp [hlt, h]
  constructor
  · have hps : primaryMonthly env pid tid (some m) (some y) =
        .ok ⟨pid, tid,
             monthlyTotalStr env pid tid (z.midnightToUTC y m)
               (if m = 12 then z.midnightToUTC (y + 1) 1 else z.midnightToUTC y (m + 1)),
             "USD",
             (revenueRows env pid tid (z.midnightToUTC y m)
               (if m = 12 then z.midnightToUTC (y + 1) 1 else z.midnightToUTC y (m + 1))).length,
             some m, some y, ptz⟩ := by
      rw [primary_supplied env pid tid m y ptz z hpool htzq hz (by omega) (by omega)]
      rw [finishMonthly_ok env pid tid m y ptz z hm1 hm2 hy1 hy2 hrev]
      rw [hwin]
    exact calculate_of_ok env pid tid (some m) (some y) _ hps
  · intro r
    unfold revenueRows
    simp [List.mem_filter, and_assoc]

/-- Witness for C3 at a concrete healthy environment (March 2024, one
matching reservation). -/
theorem C3_month_window_witness :
    calculate_monthly_revenue envUp "p1" "t1" (some 3) (some 2024) =
      ⟨"p1", "t1",
       monthlyTotalStr envUp "p1" "t1" (tz0.midnightToUTC 2024 3) (tz0.midnightToUTC 2024 4),
       "USD",
       (revenueRows envUp "p1" "t1" (tz0.midnightToUTC 2024 3) (tz0.midnightToUTC 2024 4)).length,
       some 3, some 2024, "UTC"⟩ :=
  (C3_month_window envUp "p1" "t1" 3 2024 "UTC" tz0 rfl rfl rfl rfl (by decide) (by decide)
    (by decide) (by decide)).1

/-- C4: the returned total is the store sum (NULL treated as zero) rounded
to 2 decimal places with round-half-up semantics — the rounded magnitude
in cents is within half a unit of the exact magnitude, with the tie going
up, i.e. away from zero — formatted with exactly two fractional digits;
in particular 10.005 rounds to "10.01", not "10.00". -/
theorem C4_halfup_rounding :
    (∀ (env : Env) (pid tid : String) (m y : Nat) (ptz : String) (z : TZInfo),
       env.poolOk = true → env.tzQueryFails = false → env.revenueQueryFails = false →
       resolveTz env (tzNameOf env pid tid) = some (ptz, z) →
       1 ≤ m → m ≤ 12 → 1 ≤ y → y ≤ 9998 →
       (calculate_monthly_revenue env pid tid (some m) (some y)).total =
         format_decimal (quantizeHalfUp (pyOrDec (sumOfWindow env pid tid
           (monthWindow z y m).1 (monthWindow z y m).2)))) ∧
    (∀ c : Cents, twoFracDigits (format_decimal c) = true) ∧
    (∀ d : Dec, 2 ≤ d.e →
       2 * (quantizeHalfUp d).cents * 10 ^ (d.e - 2) ≤ 2 * d.m.natAbs + 10 ^ (d.e - 2) ∧
       2 * d.m.natAbs < 2 * (quantizeHalfUp d).cents * 10 ^ (d.e - 2) + 10 ^ (d.e - 2)) ∧
    (∀ d : Dec, d.e ≤ 2 → (quantizeHalfUp d).cents = d.m.natAbs * 10 ^ (2 - d.e)) ∧
    format_decimal (quantizeHalfUp (pyOrDec none)) = "0.00" ∧
    format_decimal (quantizeHalfUp ⟨10005, 3⟩) = "10.01" := by
  have h0 : renderNat 0 = ['0'] := by
    rw [renderNat]
    simp [digitChar]
  have h1r : renderNat 1 = ['1'] := by
    rw [renderNat]
    simp [digitChar]
  have h10 : renderNat 10 = ['1', '0'] := by
    rw [renderNat]
    norm_num [h1r, digitChar]
  have hzero : format_decimal (quantizeHalfUp (pyOrDec none)) = "0.00" := by
    apply String.ext
    simp [format_decimal, quantizeHalfUp, pyOrDec, twoDigitChars, digitChar, h0]
  have htie : format_decimal (quantizeHalfUp ⟨10005, 3⟩) = "10.01" := by
    apply String.ext
    have hc : (quantizeHalfUp ⟨10005, 3⟩).cents = 1001 := by
      unfold quantizeHalfUp
      norm_num
    have hn : (quantizeHalfUp ⟨10005, 3⟩).neg = false := by
      unfold quantizeHalfUp
      norm_num
    simp [format_decimal, hc, hn, twoDigitChars, digitChar, h10, h0]
  refine ⟨?_, format_decimal_twoFrac, quantize_halfup_spec, quantize_exact, hzero, htie⟩
  intro env pid tid m y ptz z hpool htzq hrev hz hm1 hm2 hy1 hy2
  have hps : primaryMonthly env pid tid (some m) (some y) =
      .ok ⟨pid, tid,
           monthlyTotalStr env pid tid (monthWindow z y m).1 (monthWindow z y m).2, "USD",
           (revenueRows env pid tid (monthWindow z y m).1 (monthWindow z y m).2).length,
           some m, some y, ptz⟩ := by
    rw [primary_supplied env pid tid m y ptz z hpool htzq hz (by omega) (by omega)]
    exact finishMonthly_ok env pid tid m y ptz z hm1 hm2 hy1 hy2 hrev
  rw [calculate_of_ok env pid tid (some m) (some y) _ hps]
  rfl

/-- Witness for C4 at a concrete environment whose March 2024 sum is
exactly 10.005 (one reservation), exercising the tie. -/
theorem C4_halfup_rounding_witness :
    (calculate_monthly_revenue envUp "p1" "t1" (some 3) (some 2024)).total =
      format_decimal (quantizeHalfUp (pyOrDec (sumOfWindow envUp "p1" "t1"
        (monthWindow tz0 2024 3).1 (monthWindow tz0 2024 3).2))) ∧
    2 * (quantizeHalfUp ⟨10005, 3⟩).cents * 10 ^ 1 ≤ 2 * (10005 : Int).natAbs + 10 ^ 1 ∧
    2 * (10005 : Int).natAbs < 2 * (quantizeHalfUp ⟨10005, 3⟩).cents * 10 ^ 1 + 10 ^ 1 :=
  ⟨C4_halfup_rounding.1 envUp "p1" "t1" 3 2024 "UTC" tz0 rfl rfl rfl rfl (by decide) (by decide)
     (by decide) (by decide),
   (C4_halfup_rounding.2.2.1 ⟨10005, 3⟩ (by decide)).1,
   (C4_halfup_rounding.2.2.1 ⟨10005, 3⟩ (by decide)).2⟩

/-- Witness for C5 at concrete month and year. -/
theorem C5_cache_key_witness :
    cache_key "p1" "t1" (some 10) (some 2025) =
      "revenue:" ++ "t1" ++ ":" ++ "p1" ++ ":" ++ renderNatStr 2025 ++ "-" ++ renderNatStr 10 ∧
    cache_key "p1" "t1" none none ≠ cache_key "p1" "t1" (some 10) (some 2025) :=
  ⟨(C5_cache_key "p1" "t1" 10 2025 (by decide) (by decide)).1,
   (C5_cache_key "p1" "t1" 10 2025 (by decide) (by decide)).2.2⟩

/-- C8: with month and year both absent, the reported period comes from
the most recent check-in converted to the resolved local timezone when one
exists, and from the current instant converted to the local timezone
otherwise. -/
theorem C8_period_resolution (env : Env) (pid tid : String) (ptz : String) (z : TZInfo)
    (hpool : env.poolOk = true) (htzq : env.tzQueryFails = false)
    (hlq : env.latestQueryFails = false) (hrev : env.revenueQueryFails = false)
    (hz : resolveTz env (tzNameOf env pid tid) = some (ptz, z)) :
    (∀ t, latestCheckIn env pid tid = some t → validYM (z.yearMonthOfInstant t) = true →
       (calculate_monthly_revenue env pid tid none none).month =
         some (z.yearMonthOfInstant t).2 ∧
       (calculate_monthly_revenue env pid tid none none).year =
         some (z.yearMonthOfInstant t).1) ∧
    (latestCheckIn env pid tid = none → validYM (z.yearMonthOfInstant env.nowUTC) = true →
       (calculate_monthly_revenue env pid tid none none).month =
         some (z.yearMonthOfInstant env.nowUTC).2 ∧
       (calculate_monthly_revenue env pid tid none none).year =
         some (z.yearMonthOfInstant env.nowUTC).1) := by
  constructor
  · intro t ht hv
    obtain ⟨h1, h2, h3, h4⟩ :
        1 ≤ (z.yearMonthOfInstant t).2 ∧ (z.yearMonthOfInstant t).2 ≤ 12 ∧
        1 ≤ (z.yearMonthOfInstant t).1 ∧ (z.yearMonthOfInstant t).1 ≤ 9998 := by
      simpa [validYM, and_assoc] using hv
    have hps := primary_latest env pid tid none none ptz z t hpool htzq hz rfl hlq ht
    rw [finishMonthly_ok env pid tid _ _ ptz z h1 h2 h3 h4 hrev] at hps
    rw [calculate_of_ok env pid tid none none _ hps]
    exact ⟨rfl, rfl⟩
  · intro ht hv
    obtain ⟨h1, h2, h3, h4⟩ :
        1 ≤ (z.yearMonthOfInstant env.nowUTC).2 ∧ (z.yearMonthOfInstant env.nowUTC).2 ≤ 12 ∧
        1 ≤ (z.yearMonthOfInstant env.nowUTC).1 ∧ (z.yearMonthOfInstant env.nowUTC).1 ≤ 9998 := by
      simpa [validYM, and_assoc] using hv
    have hps := primary_nolatest env pid tid none none ptz z hpool htzq hz rfl hlq ht
    rw [show pyOr none (z.yearMonthOfInstant env.nowUTC).2 =
          (z.yearMonthOfInstant env.nowUTC).2 from rfl,
        show pyOr none (z.yearMonthOfInstant env.nowUTC).1 =
          (z.yearMonthOfInstant env.nowUTC).1 from rfl] at hps
    rw [finishMonthly_ok env pid tid _ _ ptz z h1 h2 h3 h4 hrev] at hps
    rw [calculate_of_ok env pid tid none none _ hps]
    exact ⟨rfl, rfl⟩

/-- Witness for C8: `envUp` has a latest check-in at instant 202403, whose
local (year, month) under `tz0` is (2024, 3). -/
theorem C8_period_resolution_witness :
    (calculate_monthly_revenue envUp "p1" "t1" none none).month =
      some (tz0.yearMonthOfInstant 202403).2 ∧
    (calculate_monthly_revenue envUp "p1" "t1" none none).year =
      some (tz0.yearMonthOfInstant 202403).1 :=
  (C8_period_resolution envUp "p1" "t1" "UTC" tz0 rfl rfl rfl rfl rfl).1 202403 rfl (by decide)

/-- A healthy concrete environment with no reservations. -/
def envEmpty : Env :=
  ⟨true, false, false, false, fun _ _ => some "UTC", fun _ => some tz0, [], 202510⟩

/-- C10: when exactly one of month and year is supplied, the resolution
branch for missing values runs — if a latest check-in exists, the supplied
value (month `vm` or year `vy`) is discarded and both fields are replaced
by the check-in's local month and year; if none exists, the supplied value
is kept and only the missing one is filled from the current local
instant. -/
theorem C10_partial_period (env : Env) (pid tid : String) (vm vy : Nat) (ptz : String)
    (z : TZInfo)
    (hpool : env.poolOk = true) (htzq : env.tzQueryFails = false)
    (hlq : env.latestQueryFails = false) (hrev : env.revenueQueryFails = false)
    (hz : resolveTz env (tzNameOf env pid tid) = some (ptz, z))
    (hm1 : 1 ≤ vm) (hm2 : vm ≤ 12) (hy1 : 1 ≤ vy) (hy2 : vy ≤ 9998) :
    (∀ t, latestCheckIn env pid tid = some t → validYM (z.yearMonthOfInstant t) = true →
       ((calculate_monthly_revenue env pid tid (some vm) none).month =
          some (z.yearMonthOfInstant t).2 ∧
        (calculate_monthly_revenue env pid tid (some vm) none).year =
          some (z.yearMonthOfInstant t).1) ∧
       ((calculate_monthly_revenue env pid tid none (some vy)).month =
          some (z.yearMonthOfInstant t).2 ∧
        (calculate_monthly_revenue env pid tid none (some vy)).year =
          some (z.yearMonthOfInstant t).1)) ∧
    (latestCheckIn env pid tid = none → validYM (z.yearMonthOfInstant env.nowUTC) = true →
       ((calculate_monthly_revenue env pid tid (some vm) none).month = some vm ∧
        (calculate_monthly_revenue env pid tid (some vm) none).year =
          some (z.yearMonthOfInstant env.nowUTC).1) ∧
       ((calculate_monthly_revenue env pid tid none (some vy)).month =
          some (z.yearMonthOfInstant env.nowUTC).2 ∧
        (calculate_monthly_revenue env pid tid none (some vy)).year = some vy)) := by
  have hmne : ¬ vm = 0 := by omega
  have hyne : ¬ vy = 0 := by omega
  have hnot1 : (pyTruthy (some vm) && pyTruthy none) = false := by
    simp [pyTruthy]
  have hnot2 : (pyTruthy none && pyTruthy (some vy)) = false := rfl
  constructor
  · intro t ht hv
    obtain ⟨h1, h2, h3, h4⟩ :
        1 ≤ (z.yearMonthOfInstant t).2 ∧ (z.yearMonthOfInstant t).2 ≤ 12 ∧
        1 ≤ (z.yearMonthOfInstant t).1 ∧ (z.yearMonthOfInstant t).1 ≤ 9998 := by
      simpa [validYM, and_assoc] using hv
    constructor
    · have hps := primary_latest env pid tid (some vm) none ptz z t hpool htzq hz hnot1 hlq ht
      rw [finishMonthly_ok env pid tid _ _ ptz z h1 h2 h3 h4 hrev] at hps
      rw [calculate_of_ok env pid tid (some vm) none _ hps]
      exact ⟨rfl, rfl⟩
    · have hps := primary_latest env pid tid none (some vy) ptz z t hpool htzq hz hnot2 hlq ht
      rw [finishMonthly_ok env pid tid _ _ ptz z h1 h2 h3 h4 hrev] at hps
      rw [calculate_of_ok env pid tid none (some vy) _ hps]
      exact ⟨rfl, rfl⟩
  · intro ht hv
    obtain ⟨h1, h2, h3, h4⟩ :
        1 ≤ (z.yearMonthOfInstant env.nowUTC).2 ∧ (z.yearMonthOfInstant env.nowUTC).2 ≤ 12 ∧
        1 ≤ (z.yearMonthOfInstant env.nowUTC).1 ∧ (z.yearMonthOfInstant env.nowUTC).1 ≤ 9998 := by
      simpa [validYM, and_assoc] using hv
    have hporm : ∀ d : Nat, pyOr (some vm) d = vm := by
      intro d
      simp [pyOr, hmne]
    have hpory : ∀ d : Nat, pyOr (some vy) d = vy := by
      intro d
      simp [pyOr, hyne]
    constructor
    · have hps := primary_nolatest env pid tid (some vm) none ptz z hpool htzq hz hnot1 hlq ht
      rw [hporm, show pyOr none (z.yearMonthOfInstant env.nowUTC).1 =
            (z.yearMonthOfInstant env.nowUTC).1 from rfl] at hps
      rw [finishMonthly_ok env pid tid _ _ ptz z hm1 hm2 h3 h4 hrev] at hps
      rw [calculate_of_ok env pid tid (some vm) none _ hps]
      exact ⟨rfl, rfl⟩
    · have hps := primary_nolatest env pid tid none (some vy) ptz z hpool htzq hz hnot2 hlq ht
      rw [hpory, show pyOr none (z.yearMonthOfInstant env.nowUTC).2 =
            (z.yearMonthOfInstant env.nowUTC).2 from rfl] at hps
      rw [finishMonthly_ok env pid tid _ _ ptz z h1 h2 hy1 hy2 hrev] at hps
      rw [calculate_of_ok env pid tid none (some vy) _ hps]
      exact ⟨rfl, rfl⟩

/-- Witness for C10 in both orientations: in `envUp` the latest check-in
(2024, 3) overrides both a supplied month 5 and a supplied year 2024; in
`envEmpty` the supplied month 5 is kept with the year filled from the
current instant (2025, 10), and the supplied year 2024 is kept with the
month filled from the current instant. -/
theorem C10_partial_period_witness :
    (((calculate_monthly_revenue envUp "p1" "t1" (some 5) none).month =
        some (tz0.yearMonthOfInstant 202403).2 ∧
      (calculate_monthly_revenue envUp "p1" "t1" (some 5) none).year =
        some (tz0.yearMonthOfInstant 202403).1) ∧
     ((calculate_monthly_revenue envUp "p1" "t1" none (some 2024)).month =
        some (tz0.yearMonthOfInstant 202403).2 ∧
      (calculate_monthly_revenue envUp "p1" "t1" none (some 2024)).year =
        some (tz0.yearMonthOfInstant 202403).1)) ∧
    (((calculate_monthly_revenue envEmpty "p1" "t1" (some 5) none).month = some 5 ∧
      (calculate_monthly_revenue envEmpty "p1" "t1" (some 5) none).year =
        some (tz0.yearMonthOfInstant envEmpty.nowUTC).1) ∧
     ((calculate_monthly_revenue envEmpty "p1" "t1" none (some 2024)).month =
        some (tz0.yearMonthOfInstant envEmpty.nowUTC).2 ∧
      (calculate_monthly_revenue envEmpty "p1" "t1" none (some 2024)).year = some 2024)) :=
  ⟨(C10_partial_period envUp "p1" "t1" 5 2024 "UTC" tz0 rfl rfl rfl rfl rfl (by decide)
      (by decide) (by decide) (by decide)).1 202403 rfl (by decide),
   (C10_partial_period envEmpty "p1" "t1" 5 2024 "UTC" tz0 rfl rfl rfl rfl rfl (by decide)
      (by decide) (by decide) (by decide)).2 rfl (by decide)⟩

/-- C2: `get_revenue_summary` is cache-aside — on a hit it deserializes
and returns the cached value with zero aggregator invocations; on a miss
it invokes `calculate_monthly_revenue` once, stores the serialized result
under the key with a 300-second expiry, and returns it; hence two
immediately successive calls with identical inputs (no expiry, no cache
failure) invoke the aggregator at most once and return the same summary. -/
theorem C2_cache_aside :
    (∀ (cenv : CacheEnv) (env : Env) (st : CacheState) (pid tid : String)
       (m? y? : Option Nat) (c : String) (s : Summary),
       cenv.getFails = false →
       cacheLookup st (cache_key pid tid m? y?) = some c → c ≠ "" →
       deserializeSummary c = some s →
       get_revenue_summary cenv env st pid tid m? y? = .ok (s, st, 0)) ∧
    (∀ (cenv : CacheEnv) (env : Env) (st : CacheState) (pid tid : String)
       (m? y? : Option Nat),
       cenv.getFails = false → cenv.setFails = false →
       cacheLookup st (cache_key pid tid m? y?) = none →
       get_revenue_summary cenv env st pid tid m? y? =
         .ok (calculate_monthly_revenue env pid tid m? y?,
              cacheInsert st (cache_key pid tid m? y?) 300
                (serializeSummary (calculate_monthly_revenue env pid tid m? y?)), 1)) ∧
    (∀ (cenv : CacheEnv) (env : Env) (st : CacheState) (pid tid : String)
       (m? y? : Option Nat),
       cenv.getFails = false → cenv.setFails = false →
       cacheLookup st (cache_key pid tid m? y?) = none →
       envTzSimple env → simpleStr pid = true → simpleStr tid = true →
       ∃ st1,
         get_revenue_summary cenv env st pid tid m? y? =
           .ok (calculate_monthly_revenue env pid tid m? y?, st1, 1) ∧
         get_revenue_summary cenv env st1 pid tid m? y? =
           .ok (calculate_monthly_revenue env pid tid m? y?, st1, 0)) := by
  refine ⟨grs_hit, grs_miss, ?_⟩
  intro cenv env st pid tid m? y? hg hs hc htz hp ht
  refine ⟨cacheInsert st (cache_key pid tid m? y?) 300
    (serializeSummary (calculate_monthly_revenue env pid tid m? y?)),
    grs_miss cenv env st pid tid m? y? hg hs hc, ?_⟩
  exact grs_hit cenv env _ pid tid m? y? _ _ hg
    (cacheLookup_insert st (cache_key pid tid m? y?) 300 _)
    (serialize_ne_empty _)
    (calculate_roundtrip env htz pid tid m? y? hp ht)

/-- Witness for C2: two successive calls at a concrete environment and an
initially empty cache. -/
theorem C2_cache_aside_witness :
    ∃ st1,
      get_revenue_summary ⟨false, false⟩ envDown ⟨[]⟩ "prop-002" "t1" none none =
        .ok (calculate_monthly_revenue envDown "prop-002" "t1" none none, st1, 1) ∧
      get_revenue_summary ⟨false, false⟩ envDown st1 "prop-002" "t1" none none =
        .ok (calculate_monthly_revenue envDown "prop-002" "t1" none none, st1, 0) :=
  C2_cache_aside.2.2 ⟨false, false⟩ envDown ⟨[]⟩ "prop-002" "t1" none none rfl rfl rfl
    (fun p t s h => Option.noConfusion h) (by decide) (by decide)
